import Mathlib

/-!
# AudioService (src/services/audioService.ts) — shallow embedding

This file embeds the final version of the `AudioService` class (the
iOS-safe Web Audio wrapper) as pure Lean functions over an explicit
service-state record, and proves the specification claims about it.

Modelling conventions:

* The mutable fields of the singleton (`context`, `resumePromise`,
  `listenersAttached`, `hasUnlockedBefore`) become the fields of
  `ServiceState`.  The promise stored in `resumePromise` is represented by
  a `Pending` record carrying a ghost identity `id` (so that "returns the
  same promise" is expressible) together with the data captured by the
  promise chain closures (`trigger`, the `fromState` snapshot).
* `AudioContext.state` is a `String`, exactly as in the DOM; the code
  compares it against the literals "running", "suspended", "interrupted",
  "closed", and any other string is an unexpected platform value.
* Asynchrony: `attemptResume` is split into `attemptResumeStart` (its
  synchronous prefix, up to and including issuing the platform resume
  call and storing the promise) and `attemptResumeSettle` (the
  `.then/.catch/.finally` continuation, run when the race between the
  platform resume and the timeout settles).  The settlement outcome —
  resolution with a resulting context state, rejection, or a timeout win —
  is an input (`ResumeOutcome`), since it is chosen by the platform.
* Side effects are made visible as data: every operation returns the list
  of events recorded to the session recorder and the list of platform
  calls it issued (`PlatformAction`), so that "no second resume call" and
  "exactly one tone" are statements about these lists.
* Fallible platform calls (tone-graph construction, `close()`, the
  `AudioContext` constructor) take a `Bool` saying whether the platform
  call succeeds; `testSound`, whose body can propagate a constructor
  exception, returns `Except String _`.
-/

namespace AudioService

/-- Oscillator waveform (the DOM `OscillatorType`). -/
inductive Waveform
  | sine
  | square
  | sawtooth
  | triangle
  | custom
deriving DecidableEq, Repr

/-- One platform `AudioContext` instance: its lifecycle state string and
its `currentTime` clock. -/
structure Ctx where
  state : String
  currentTime : ℚ
deriving DecidableEq, Repr

/-- The data held by an in-flight resume attempt: a ghost identity for the
stored promise, and the `trigger` and `fromState` values captured by the
promise chain closures in `attemptResume`. -/
structure Pending where
  id : Nat
  trigger : String
  fromState : String
deriving DecidableEq, Repr

/-- The mutable fields of the `AudioService` singleton, plus the ghost
counter `nextId` used to mint promise identities. -/
structure ServiceState where
  context : Option Ctx
  resumePromise : Option Pending
  listenersAttached : Bool
  hasUnlockedBefore : Bool
  nextId : Nat
deriving DecidableEq, Repr

/-- Field values of a freshly constructed `AudioService`. -/
def initialState : ServiceState :=
  { context := none
    resumePromise := none
    listenersAttached := false
    hasUnlockedBefore := false
    nextId := 0 }

/-- Events recorded to the session recorder (`recordEvent` calls), with
the detail payloads the code attaches. -/
inductive Event
  | context_created (state : String)
  | context_destroyed (previousState : String) (hadUnlocked : Bool)
  | resuming (trigger : String) (fromState : String)
  | resumed (state : String) (trigger : String)
  | resume_failed (error : String) (fromState : String) (trigger : String)
  | silent_warmup (state : String)
  | played (frequency duration : ℚ) (state : String)
  | play_skipped (reason : String) (state : String)
  | play_error (error : String) (frequency : ℚ)
  | test_requested (initialState : String) (hasContext hasUnlockedBefore : Bool)
  | test_success (state : String)
  | test_failed_state (reason : String) (state : String)
  | test_failed_error (error : String) (initialState : String)
deriving DecidableEq, Repr

/-- Calls made into the platform audio API, the observables for the
coalescing and playback claims. -/
inductive PlatformAction
  | warmupPlayback
  | resumeCall
  | closeCall
  | tone (frequency duration : ℚ) (waveform : Waveform) (volume : ℚ) (startTime : ℚ)
deriving DecidableEq, Repr

/-- Result of the synchronous prefix of `attemptResume`: an already
settled promise (`Promise.resolve(b)`), the existing in-flight promise,
or a newly started attempt. -/
inductive ResumeStart
  | immediate (result : Bool)
  | awaitExisting (id : Nat)
  | started (id : Nat)
deriving DecidableEq, Repr

/-- How the race between the platform resume call and the timeout
settles: the resume resolves (with the context state it leaves behind),
the resume rejects, or the timeout fires first. -/
inductive ResumeOutcome
  | resolves (postState : String)
  | rejects (error : String)
  | timesOut
deriving DecidableEq, Repr

/-- Output of an operation with no extra return value. -/
structure StepOut where
  state : ServiceState
  events : List Event
  actions : List PlatformAction
deriving DecidableEq, Repr

/-- Output of `getContext`: the new service state, recorded events, and
the returned context handle. -/
structure GetOut where
  state : ServiceState
  events : List Event
  ctx : Ctx
deriving DecidableEq, Repr

/-- Output of `attemptResumeStart`. -/
structure StartOut where
  state : ServiceState
  events : List Event
  actions : List PlatformAction
  result : ResumeStart
deriving DecidableEq, Repr

/-- Output of `attemptResumeSettle`: `result` is the boolean the attempt
promise resolves with. -/
structure SettleOut where
  state : ServiceState
  events : List Event
  actions : List PlatformAction
  result : Bool
deriving DecidableEq, Repr

/-- Output of the statechange listener: `invoked` says whether the
listener called `attemptResume`. -/
structure ListenOut where
  state : ServiceState
  events : List Event
  actions : List PlatformAction
  invoked : Bool
deriving DecidableEq, Repr

/-- The structured result `testSound` resolves with. -/
structure TestResult where
  state : String
  played : Bool
  error : Option String
deriving DecidableEq, Repr

/-- Output of `testSound` on the non-throwing path. -/
structure TestOut where
  state : ServiceState
  events : List Event
  actions : List PlatformAction
  result : TestResult
deriving DecidableEq, Repr

/-- The snapshot returned by `getState`. -/
structure StateSnapshot where
  contextExists : Bool
  state : Option String
  hasUnlockedBefore : Bool
  resumeInProgress : Bool
deriving DecidableEq, Repr

/-- The creation guard of `getContext`:
`!this.context || this.context.state === "closed"`. -/
def needsNewContext (s : ServiceState) : Bool :=
  match s.context with
  | none => true
  | some c => c.state == "closed"

/-- `getContext`, with the possibility that the platform constructor
throws (`new AudioContextClass()` with no class available, or over the
per-page context limit).  `creationOk` says whether construction
succeeds; `fresh` is the state of the newly constructed context.
Creation records `context_created` and attaches the listeners
(`setupListeners` / `setupStateChangeListener`), modelled by the
`listenersAttached` flag. -/
def getContextE (s : ServiceState) (creationOk : Bool) (fresh : String) :
    Except String GetOut :=
  if needsNewContext s then
    if creationOk then
      let c : Ctx := { state := fresh, currentTime := 0 }
      Except.ok
        { state := { s with context := some c, listenersAttached := true }
          events := [Event.context_created fresh]
          ctx := c }
    else Except.error "AudioContext constructor threw"
  else
    Except.ok { state := s, events := [], ctx := s.context.getD { state := fresh, currentTime := 0 } }

/-- `getContext` when the platform constructor is available (the
`creationOk = true` specialisation, total). -/
def getContext (s : ServiceState) (fresh : String) : GetOut :=
  if needsNewContext s then
    let c : Ctx := { state := fresh, currentTime := 0 }
    { state := { s with context := some c, listenersAttached := true }
      events := [Event.context_created fresh]
      ctx := c }
  else
    { state := s, events := [], ctx := s.context.getD { state := fresh, currentTime := 0 } }

/-- `destroyContext`.  `closeOk` says whether the platform `close()`
call succeeds; the code swallows a failure (`try { close } catch`), so the
output never depends on it. -/
def destroyContext (s : ServiceState) (closeOk : Bool) : StepOut :=
  match s.context with
  | none => { state := s, events := [], actions := [] }
  | some c =>
    -- try { this.context.close() } catch: the failure is ignored
    let _ : Bool := closeOk
    { state := { s with context := none, resumePromise := none, hasUnlockedBefore := false }
      events := [Event.context_destroyed c.state s.hasUnlockedBefore]
      actions := [PlatformAction.closeCall] }

/-- The synchronous prefix of `attemptResume(trigger)`: the early
returns, the `resuming` and warmup records, the platform resume call,
and the storing of the new promise. -/
def attemptResumeStart (s : ServiceState) (trigger : String) : StartOut :=
  match s.context with
  | none => { state := s, events := [], actions := [], result := ResumeStart.immediate false }
  | some c =>
    if c.state == "running" then
      { state := s, events := [], actions := [], result := ResumeStart.immediate true }
    else
      match s.resumePromise with
      | some p =>
        { state := s, events := [], actions := [], result := ResumeStart.awaitExisting p.id }
      | none =>
        if c.state == "suspended" || c.state == "interrupted" then
          { state :=
              { s with
                  resumePromise :=
                    some { id := s.nextId, trigger := trigger, fromState := c.state }
                  nextId := s.nextId + 1 }
            events := [Event.resuming trigger c.state, Event.silent_warmup c.state]
            actions := [PlatformAction.warmupPlayback, PlatformAction.resumeCall]
            result := ResumeStart.started s.nextId }
        else
          { state := s, events := [], actions := [], result := ResumeStart.immediate false }

/-- The error message built by `withTimeout` when the timeout fires. -/
def timeoutMessage (trigger : String) : String :=
  "Resume timeout (" ++ trigger ++ ")"

/-- The `.then/.catch/.finally` continuation of the attempt stored by
`attemptResumeStart`, run when the raced promise settles with `o`.
On resolution the platform has set the context state to `o.postState`;
the continuation sets `hasUnlockedBefore`, records `resumed`, and
resolves with whether the state is now "running".  On rejection or
timeout it records `resume_failed` and destroys the context.  The
`.finally` clears `resumePromise` on every path. -/
def attemptResumeSettle (s : ServiceState) (p : Pending) (o : ResumeOutcome)
    (closeOk : Bool) : SettleOut :=
  match o with
  | ResumeOutcome.resolves post =>
    let s1 : ServiceState :=
      { s with
          context := (s.context.map fun c => { c with state := post })
          hasUnlockedBefore := true
          resumePromise := none }
    { state := s1
      events := [Event.resumed post p.trigger]
      actions := []
      result := post == "running" }
  | ResumeOutcome.rejects e =>
    let d := destroyContext s closeOk
    { state := { d.state with resumePromise := none }
      events := Event.resume_failed e p.fromState p.trigger :: d.events
      actions := d.actions
      result := false }
  | ResumeOutcome.timesOut =>
    let d := destroyContext s closeOk
    { state := { d.state with resumePromise := none }
      events := Event.resume_failed (timeoutMessage p.trigger) p.fromState p.trigger :: d.events
      actions := d.actions
      result := false }

/-- Settle the currently stored attempt, if any.  A settlement with no
matching stored promise (the attempt was already cleared) is a no-op
resolving false. -/
def settlePending (s : ServiceState) (o : ResumeOutcome) (closeOk : Bool) : SettleOut :=
  match s.resumePromise with
  | some p => attemptResumeSettle s p o closeOk
  | none => { state := s, events := [], actions := [], result := false }

/-- The handler installed by `setupStateChangeListener`:
`if (this.context?.state !== "running" && this.hasUnlockedBefore)
attemptResume("statechange")`.  `invoked` records whether
`attemptResume` was called. -/
def stateChangeListener (s : ServiceState) : ListenOut :=
  let stateNotRunning : Bool :=
    match s.context with
    | none => true
    | some c => c.state != "running"
  if stateNotRunning && s.hasUnlockedBefore then
    let a := attemptResumeStart s "statechange"
    { state := a.state, events := a.events, actions := a.actions, invoked := true }
  else
    { state := s, events := [], actions := [], invoked := false }

/-- `doPlayBeep` (assumes a running context): the tone-graph
construction, or on a synthesis failure (`synthOk = false`) the
`play_error` record followed by context destruction. -/
def doPlayBeep (s : ServiceState) (ctx : Ctx) (frequency duration : ℚ)
    (type : Waveform) (volume : ℚ) (synthOk closeOk : Bool) : StepOut :=
  if ctx.state != "running" then
    { state := s, events := [Event.play_skipped "not_running" ctx.state], actions := [] }
  else if synthOk then
    { state := s
      events := [Event.played frequency duration ctx.state]
      actions := [PlatformAction.tone frequency duration type volume ctx.currentTime] }
  else
    let d := destroyContext s closeOk
    { state := d.state
      events := Event.play_error "synthesis failed" frequency :: d.events
      actions := d.actions }

/-- The synchronous body of `playBeep`.  The continuation it attaches to
a newly started attempt (play the tone if the attempt succeeds) runs at
settlement time and is modelled by `Op.settleThenBeepOp` below. -/
def playBeep (s : ServiceState) (frequency duration : ℚ) (type : Waveform)
    (volume : ℚ) (fresh : String) (synthOk closeOk : Bool) : StepOut :=
  let g := getContext s fresh
  if g.ctx.state == "running" then
    let b := doPlayBeep g.state g.ctx frequency duration type volume synthOk closeOk
    { state := b.state, events := g.events ++ b.events, actions := b.actions }
  else if g.ctx.state == "suspended" || g.ctx.state == "interrupted" then
    if g.state.resumePromise.isSome then
      { state := g.state
        events := g.events ++ [Event.play_skipped "resume_in_progress" g.ctx.state]
        actions := [] }
    else
      let a := attemptResumeStart g.state "playBeep"
      { state := a.state, events := g.events ++ a.events, actions := a.actions }
  else
    { state := g.state
      events := g.events ++ [Event.play_skipped "unexpected_state" g.ctx.state]
      actions := [] }

/-- Awaiting the promise returned by `attemptResume`: an already settled
promise yields its value at once; a stored attempt is settled by the
platform outcome `o`. -/
def awaitAttempt (a : StartOut) (o : ResumeOutcome) (closeOk : Bool) : SettleOut :=
  match a.result with
  | ResumeStart.immediate b =>
    { state := a.state, events := [], actions := [], result := b }
  | ResumeStart.awaitExisting _ => settlePending a.state o closeOk
  | ResumeStart.started _ => settlePending a.state o closeOk

/-- `testSound`.  `getContext` is invoked before the `try` block, so a
constructor exception propagates to the caller (`Except.error`); inside
the `try`, a destroyed-context read after a failed tone synthesis throws
a TypeError that the `catch` turns into an error result. -/
def testSound (s : ServiceState) (creationOk : Bool) (fresh : String)
    (o : ResumeOutcome) (synthOk closeOk : Bool) : Except String TestOut :=
  match getContextE s creationOk fresh with
  | Except.error e => Except.error e
  | Except.ok g =>
    let requested := Event.test_requested g.ctx.state true g.state.hasUnlockedBefore
    let a := attemptResumeStart g.state "testSound"
    let t : SettleOut := awaitAttempt a o closeOk
    let evsPre := g.events ++ requested :: a.events ++ t.events
    let actsPre := a.actions ++ t.actions
    match t.state.context with
    | some c2 =>
      if t.result && (c2.state == "running") then
        let b := doPlayBeep t.state c2 440 (3/10) Waveform.sine (8/10) synthOk closeOk
        match b.state.context with
        | some c3 =>
          Except.ok
            { state := b.state
              events := evsPre ++ b.events ++ [Event.test_success c3.state]
              actions := actsPre ++ b.actions
              result := { state := c3.state, played := true, error := none } }
        | none =>
          -- doPlayBeep destroyed the context; `this.context.state` throws,
          -- and the catch block returns the error result
          Except.ok
            { state := b.state
              events := evsPre ++ b.events ++
                [Event.test_failed_error "TypeError: context is null" g.ctx.state]
              actions := actsPre ++ b.actions
              result :=
                { state := g.ctx.state, played := false
                  error := some "TypeError: context is null" } }
      else
        Except.ok
          { state := t.state
            events := evsPre ++ [Event.test_failed_state "not_running" c2.state]
            actions := actsPre
            result :=
              { state := c2.state, played := false
                error := some ("Context state: " ++ c2.state) } }
    | none =>
      Except.ok
        { state := t.state
          events := evsPre ++ [Event.test_failed_state "not_running" "destroyed"]
          actions := actsPre
          result :=
            { state := "destroyed", played := false
              error := some "Context state: destroyed" } }

/-- `getState`: the diagnostic snapshot, side-effect free. -/
def getState (s : ServiceState) : StateSnapshot :=
  { contextExists := s.context.isSome
    state := s.context.map Ctx.state
    hasUnlockedBefore := s.hasUnlockedBefore
    resumeInProgress := s.resumePromise.isSome }

/-- A context-internal state change: the platform rewrites the state of
the current context, if one exists. -/
def applyStateChange (s : ServiceState) (ns : String) : ServiceState :=
  match s.context with
  | some c => { s with context := some { c with state := ns } }
  | none => s

/-- One event-loop turn against the service: the public entry points, the
listener firings, and the settlement of a stored resume attempt together
with the continuation that the initiating caller attached to it. -/
inductive Op
  | primeOp (fresh : String)
  | ensureRunningOp (fresh : String)
  | playBeepOp (frequency duration : ℚ) (type : Waveform) (volume : ℚ)
      (fresh : String) (synthOk closeOk : Bool)
  | gestureOp
  | visibilityOp (visible : Bool)
  | stateChangedOp (newState : String)
  | settleOp (o : ResumeOutcome) (closeOk : Bool)
  | settleThenBeepOp (o : ResumeOutcome) (frequency duration : ℚ) (type : Waveform)
      (volume : ℚ) (synthOk closeOk : Bool)
  | settleThenEnsureOp (o : ResumeOutcome) (fresh : String) (closeOk : Bool)
  | testSoundOp (creationOk : Bool) (fresh : String) (o : ResumeOutcome)
      (synthOk closeOk : Bool)

/-- The settlement outcome an operation carries, if it settles an
attempt. -/
def settleOutcome : Op → Option ResumeOutcome
  | Op.settleOp o _ => some o
  | Op.settleThenBeepOp o _ _ _ _ _ _ => some o
  | Op.settleThenEnsureOp o _ _ => some o
  | Op.testSoundOp _ _ o _ _ => some o
  | _ => none

/-- The transition of one event-loop turn. -/
def step (s : ServiceState) (op : Op) : StepOut :=
  match op with
  | Op.primeOp fresh =>
    -- prime(): this.getContext()
    let g := getContext s fresh
    { state := g.state, events := g.events, actions := [] }
  | Op.ensureRunningOp fresh =>
    -- ensureRunning(): getContext; early return when running; else attemptResume
    let g := getContext s fresh
    if g.ctx.state == "running" then
      { state := g.state, events := g.events, actions := [] }
    else
      let a := attemptResumeStart g.state "ensureRunning"
      { state := a.state, events := g.events ++ a.events, actions := a.actions }
  | Op.playBeepOp f d w v fresh synthOk closeOk =>
    playBeep s f d w v fresh synthOk closeOk
  | Op.gestureOp =>
    -- a user-gesture listener firing (attached by setupListeners)
    if s.listenersAttached then
      let a := attemptResumeStart s "gesture"
      { state := a.state, events := a.events, actions := a.actions }
    else
      { state := s, events := [], actions := [] }
  | Op.visibilityOp visible =>
    -- the visibilitychange listener: visible && this.context
    if s.listenersAttached && visible && s.context.isSome then
      let a := attemptResumeStart s "visibility"
      { state := a.state, events := a.events, actions := a.actions }
    else
      { state := s, events := [], actions := [] }
  | Op.stateChangedOp ns =>
    -- the platform changes the context state, then the statechange listener runs
    let l := stateChangeListener (applyStateChange s ns)
    { state := l.state, events := l.events, actions := l.actions }
  | Op.settleOp o closeOk =>
    let t := settlePending s o closeOk
    { state := t.state, events := t.events, actions := t.actions }
  | Op.settleThenBeepOp o f d w v synthOk closeOk =>
    -- settlement followed by the continuation playBeep attached:
    -- (success) => if success && this.context?.state === "running" doPlayBeep
    let t := settlePending s o closeOk
    match t.state.context with
    | some c =>
      if t.result && (c.state == "running") then
        let b := doPlayBeep t.state c f d w v synthOk closeOk
        { state := b.state, events := t.events ++ b.events, actions := t.actions ++ b.actions }
      else
        { state := t.state, events := t.events, actions := t.actions }
    | none =>
      { state := t.state, events := t.events, actions := t.actions }
  | Op.settleThenEnsureOp o fresh closeOk =>
    -- settlement followed by the continuation of ensureRunning: return this.getContext()
    let t := settlePending s o closeOk
    let g := getContext t.state fresh
    { state := g.state, events := t.events ++ g.events, actions := t.actions }
  | Op.testSoundOp creationOk fresh o synthOk closeOk =>
    match testSound s creationOk fresh o synthOk closeOk with
    | Except.error _ => { state := s, events := [], actions := [] }
    | Except.ok out => { state := out.state, events := out.events, actions := out.actions }

/-- Number of platform resume calls in an action list. -/
def countResumeCalls (l : List PlatformAction) : Nat :=
  l.count PlatformAction.resumeCall

/-- Number of synthesized tones in an action list. -/
def countTones (l : List PlatformAction) : Nat :=
  l.countP fun a =>
    match a with
    | PlatformAction.tone _ _ _ _ _ => true
    | _ => false

/-! ## Basic lemmas about the embedded operations -/

theorem countResumeCalls_nil : countResumeCalls [] = 0 := rfl

theorem countResumeCalls_append (l₁ l₂ : List PlatformAction) :
    countResumeCalls (l₁ ++ l₂) = countResumeCalls l₁ + countResumeCalls l₂ :=
  List.count_append _ _ _

theorem getContext_resumePromise (s : ServiceState) (fresh : String) :
    (getContext s fresh).state.resumePromise = s.resumePromise := by
  unfold getContext
  split <;> rfl

theorem getContext_hasUnlocked (s : ServiceState) (fresh : String) :
    (getContext s fresh).state.hasUnlockedBefore = s.hasUnlockedBefore := by
  unfold getContext
  split <;> rfl

theorem getContext_live (s : ServiceState) (c : Ctx) (fresh : String)
    (hc : s.context = some c) (hcl : c.state ≠ "closed") :
    getContext s fresh = { state := s, events := [], ctx := c } := by
  unfold getContext needsNewContext
  rw [hc]
  simp [hcl]

theorem getContext_context_isSome (s : ServiceState) (fresh : String) :
    (getContext s fresh).state.context.isSome = true := by
  unfold getContext needsNewContext
  cases hc : s.context with
  | none => rfl
  | some c => split <;> simp [hc]

theorem getContextE_true (s : ServiceState) (fresh : String) :
    getContextE s true fresh = Except.ok (getContext s fresh) := by
  unfold getContextE getContext
  split <;> rfl

theorem destroyContext_closeOk_irrelevant (s : ServiceState) (a b : Bool) :
    destroyContext s a = destroyContext s b := by
  unfold destroyContext
  cases s.context <;> rfl

theorem destroyContext_some (s : ServiceState) (c : Ctx) (closeOk : Bool)
    (hc : s.context = some c) :
    destroyContext s closeOk =
      { state := { s with context := none, resumePromise := none, hasUnlockedBefore := false }
        events := [Event.context_destroyed c.state s.hasUnlockedBefore]
        actions := [PlatformAction.closeCall] } := by
  unfold destroyContext
  rw [hc]

theorem destroyContext_none (s : ServiceState) (closeOk : Bool)
    (hc : s.context = none) :
    destroyContext s closeOk = { state := s, events := [], actions := [] } := by
  unfold destroyContext
  rw [hc]

theorem destroyContext_context (s : ServiceState) (closeOk : Bool) :
    (destroyContext s closeOk).state.context = none := by
  unfold destroyContext
  cases hc : s.context with
  | none => simpa using hc
  | some c => rfl

theorem destroyContext_noResumeCall (s : ServiceState) (closeOk : Bool) :
    countResumeCalls (destroyContext s closeOk).actions = 0 := by
  unfold destroyContext
  cases s.context <;> rfl

theorem destroyContext_flag_mono (s : ServiceState) (closeOk : Bool)
    (h : (destroyContext s closeOk).state.hasUnlockedBefore = true) :
    s.hasUnlockedBefore = true := by
  unfold destroyContext at h
  cases hc : s.context <;> rw [hc] at h <;> first | exact h | exact absurd h (by simp)

theorem attemptResumeStart_noContext (s : ServiceState) (t : String)
    (hc : s.context = none) :
    attemptResumeStart s t =
      { state := s, events := [], actions := [], result := ResumeStart.immediate false } := by
  unfold attemptResumeStart
  rw [hc]

theorem attemptResumeStart_pending (s : ServiceState) (p : Pending) (t : String)
    (hp : s.resumePromise = some p) :
    attemptResumeStart s t =
      { state := s, events := [], actions := []
        result :=
          match s.context with
          | none => ResumeStart.immediate false
          | some c =>
            if c.state == "running" then ResumeStart.immediate true
            else ResumeStart.awaitExisting p.id } := by
  unfold attemptResumeStart
  cases hc : s.context with
  | none => rfl
  | some c =>
    rw [hp]
    split
    · simp_all
    · simp_all
      split <;> simp_all

theorem attemptResumeStart_flag (s : ServiceState) (t : String) :
    (attemptResumeStart s t).state.hasUnlockedBefore = s.hasUnlockedBefore := by
  unfold attemptResumeStart
  cases s.context with
  | none => rfl
  | some c =>
    dsimp only
    split
    · rfl
    · cases s.resumePromise with
      | some p => rfl
      | none => dsimp only; split <;> rfl

theorem attemptResumeSettle_noResumeCall (s : ServiceState) (p : Pending)
    (o : ResumeOutcome) (closeOk : Bool) :
    countResumeCalls (attemptResumeSettle s p o closeOk).actions = 0 := by
  unfold attemptResumeSettle
  cases o with
  | resolves post => rfl
  | rejects e => exact destroyContext_noResumeCall s closeOk
  | timesOut => exact destroyContext_noResumeCall s closeOk

theorem attemptResumeSettle_flag (s : ServiceState) (p : Pending)
    (o : ResumeOutcome) (closeOk : Bool)
    (h : (attemptResumeSettle s p o closeOk).state.hasUnlockedBefore = true) :
    s.hasUnlockedBefore = true ∨ ∃ post, o = ResumeOutcome.resolves post := by
  unfold attemptResumeSettle at h
  cases o with
  | resolves post => exact Or.inr ⟨post, rfl⟩
  | rejects e => exact Or.inl (destroyContext_flag_mono s closeOk h)
  | timesOut => exact Or.inl (destroyContext_flag_mono s closeOk h)

theorem settlePending_noResumeCall (s : ServiceState) (o : ResumeOutcome) (closeOk : Bool) :
    countResumeCalls (settlePending s o closeOk).actions = 0 := by
  unfold settlePending
  cases s.resumePromise with
  | none => rfl
  | some p => exact attemptResumeSettle_noResumeCall s p o closeOk

theorem settlePending_flag (s : ServiceState) (o : ResumeOutcome) (closeOk : Bool)
    (h : (settlePending s o closeOk).state.hasUnlockedBefore = true) :
    s.hasUnlockedBefore = true ∨ ∃ post, o = ResumeOutcome.resolves post := by
  unfold settlePending at h
  cases hp : s.resumePromise with
  | none => rw [hp] at h; exact Or.inl h
  | some p => rw [hp] at h; exact attemptResumeSettle_flag s p o closeOk h

theorem doPlayBeep_noResumeCall (s : ServiceState) (c : Ctx) (f d : ℚ) (w : Waveform)
    (v : ℚ) (synthOk closeOk : Bool) :
    countResumeCalls (doPlayBeep s c f d w v synthOk closeOk).actions = 0 := by
  unfold doPlayBeep
  split
  · rfl
  · split
    · rfl
    · simp [destroyContext_noResumeCall]

theorem doPlayBeep_flag_mono (s : ServiceState) (c : Ctx) (f d : ℚ) (w : Waveform)
    (v : ℚ) (synthOk closeOk : Bool)
    (h : (doPlayBeep s c f d w v synthOk closeOk).state.hasUnlockedBefore = true) :
    s.hasUnlockedBefore = true := by
  unfold doPlayBeep at h
  split at h
  · exact h
  · split at h
    · exact h
    · exact destroyContext_flag_mono s closeOk h

theorem getContextE_ok_resumePromise (s : ServiceState) (k : Bool) (fresh : String)
    (g : GetOut) (h : getContextE s k fresh = Except.ok g) :
    g.state.resumePromise = s.resumePromise := by
  unfold getContextE at h
  split at h
  · split at h
    · cases h; rfl
    · exact absurd h (by simp)
  · cases h; rfl

theorem getContextE_ok_flag (s : ServiceState) (k : Bool) (fresh : String)
    (g : GetOut) (h : getContextE s k fresh = Except.ok g) :
    g.state.hasUnlockedBefore = s.hasUnlockedBefore := by
  unfold getContextE at h
  split at h
  · split at h
    · cases h; rfl
    · exact absurd h (by simp)
  · cases h; rfl

theorem awaitAttempt_noResumeCall (a : StartOut) (o : ResumeOutcome) (closeOk : Bool) :
    countResumeCalls (awaitAttempt a o closeOk).actions = 0 := by
  unfold awaitAttempt
  cases a.result with
  | immediate b => rfl
  | awaitExisting i => exact settlePending_noResumeCall a.state o closeOk
  | started i => exact settlePending_noResumeCall a.state o closeOk

theorem awaitAttempt_flag (a : StartOut) (o : ResumeOutcome) (closeOk : Bool)
    (h : (awaitAttempt a o closeOk).state.hasUnlockedBefore = true) :
    a.state.hasUnlockedBefore = true ∨ ∃ post, o = ResumeOutcome.resolves post := by
  unfold awaitAttempt at h
  cases hr : a.result with
  | immediate b => rw [hr] at h; exact Or.inl h
  | awaitExisting i => rw [hr] at h; exact settlePending_flag a.state o closeOk h
  | started i => rw [hr] at h; exact settlePending_flag a.state o closeOk h

theorem stateChangeListener_flag (s : ServiceState) :
    (stateChangeListener s).state.hasUnlockedBefore = s.hasUnlockedBefore := by
  simp only [stateChangeListener]
  split
  · exact attemptResumeStart_flag s "statechange"
  · rfl

theorem stateChangeListener_pending_noResumeCall (s : ServiceState) (p : Pending)
    (hp : s.resumePromise = some p) :
    countResumeCalls (stateChangeListener s).actions = 0 := by
  simp only [stateChangeListener]
  split
  · rw [attemptResumeStart_pending s p _ hp]
    rfl
  · rfl

theorem playBeep_pending_noResumeCall (s : ServiceState) (p : Pending) (f d : ℚ)
    (w : Waveform) (v : ℚ) (fresh : String) (synthOk closeOk : Bool)
    (hp : s.resumePromise = some p) :
    countResumeCalls (playBeep s f d w v fresh synthOk closeOk).actions = 0 := by
  simp only [playBeep]
  split
  · exact doPlayBeep_noResumeCall _ _ _ _ _ _ _ _
  · split
    · split
      · rfl
      · rename_i hges
        rw [getContext_resumePromise, hp] at hges
        exact absurd rfl hges
    · rfl

theorem playBeep_flag_mono (s : ServiceState) (f d : ℚ) (w : Waveform) (v : ℚ)
    (fresh : String) (synthOk closeOk : Bool)
    (h : (playBeep s f d w v fresh synthOk closeOk).state.hasUnlockedBefore = true) :
    s.hasUnlockedBefore = true := by
  simp only [playBeep] at h
  split at h
  · have := doPlayBeep_flag_mono _ _ _ _ _ _ _ _ h
    rwa [getContext_hasUnlocked] at this
  · split at h
    · split at h
      · rwa [getContext_hasUnlocked] at h
      · rw [attemptResumeStart_flag] at h
        rwa [getContext_hasUnlocked] at h
    · rwa [getContext_hasUnlocked] at h

theorem testSound_ok_noResumeCall (s : ServiceState) (p : Pending) (k : Bool)
    (fresh : String) (o : ResumeOutcome) (synthOk closeOk : Bool) (out : TestOut)
    (hp : s.resumePromise = some p)
    (h : testSound s k fresh o synthOk closeOk = Except.ok out) :
    countResumeCalls out.actions = 0 := by
  cases hE : getContextE s k fresh with
  | error e =>
    simp only [testSound, hE] at h
    exact Except.noConfusion h
  | ok g =>
    have hgp : g.state.resumePromise = some p := by
      rw [getContextE_ok_resumePromise s k fresh g hE, hp]
    simp only [testSound, hE] at h
    split at h
    · split at h
      · split at h
        · cases h
          simp [countResumeCalls_append, countResumeCalls_nil, awaitAttempt_noResumeCall,
            doPlayBeep_noResumeCall, attemptResumeStart_pending g.state p _ hgp]
        · cases h
          simp [countResumeCalls_append, countResumeCalls_nil, awaitAttempt_noResumeCall,
            doPlayBeep_noResumeCall, attemptResumeStart_pending g.state p _ hgp]
      · cases h
        simp [countResumeCalls_append, countResumeCalls_nil, awaitAttempt_noResumeCall,
          doPlayBeep_noResumeCall, attemptResumeStart_pending g.state p _ hgp]
    · cases h
      simp [countResumeCalls_append, countResumeCalls_nil, awaitAttempt_noResumeCall,
        doPlayBeep_noResumeCall, attemptResumeStart_pending g.state p _ hgp]

theorem testSound_ok_flag (s : ServiceState) (k : Bool) (fresh : String)
    (o : ResumeOutcome) (synthOk closeOk : Bool) (out : TestOut)
    (h : testSound s k fresh o synthOk closeOk = Except.ok out)
    (hf : out.state.hasUnlockedBefore = true) :
    s.hasUnlockedBefore = true ∨ ∃ post, o = ResumeOutcome.resolves post := by
  cases hE : getContextE s k fresh with
  | error e =>
    simp only [testSound, hE] at h
    exact Except.noConfusion h
  | ok g =>
    have hgf : g.state.hasUnlockedBefore = s.hasUnlockedBefore :=
      getContextE_ok_flag s k fresh g hE
    simp only [testSound, hE] at h
    split at h
    · split at h
      · split at h
        · cases h
          have h1 := doPlayBeep_flag_mono _ _ _ _ _ _ _ _ hf
          rcases awaitAttempt_flag _ o closeOk h1 with h2 | h2
          · rw [attemptResumeStart_flag, hgf] at h2
            exact Or.inl h2
          · exact Or.inr h2
        · cases h
          have h1 := doPlayBeep_flag_mono _ _ _ _ _ _ _ _ hf
          rcases awaitAttempt_flag _ o closeOk h1 with h2 | h2
          · rw [attemptResumeStart_flag, hgf] at h2
            exact Or.inl h2
          · exact Or.inr h2
      · cases h
        rcases awaitAttempt_flag _ o closeOk hf with h2 | h2
        · rw [attemptResumeStart_flag, hgf] at h2
          exact Or.inl h2
        · exact Or.inr h2
    · cases h
      rcases awaitAttempt_flag _ o closeOk hf with h2 | h2
      · rw [attemptResumeStart_flag, hgf] at h2
        exact Or.inl h2
      · exact Or.inr h2

theorem applyStateChange_resumePromise (s : ServiceState) (ns : String) :
    (applyStateChange s ns).resumePromise = s.resumePromise := by
  unfold applyStateChange
  cases s.context <;> rfl

theorem applyStateChange_flag (s : ServiceState) (ns : String) :
    (applyStateChange s ns).hasUnlockedBefore = s.hasUnlockedBefore := by
  unfold applyStateChange
  cases s.context <;> rfl

/-- While an attempt is stored, no event-loop turn of any kind issues a
platform resume call. -/
theorem step_pending_noResumeCall (s : ServiceState) (p : Pending) (op : Op)
    (hp : s.resumePromise = some p) :
    countResumeCalls (step s op).actions = 0 := by
  cases op with
  | primeOp fresh => rfl
  | ensureRunningOp fresh =>
    simp only [step]
    split
    · rfl
    · rw [attemptResumeStart_pending (getContext s fresh).state p _
        (by rw [getContext_resumePromise, hp])]
      rfl
  | playBeepOp f d w v fresh synthOk closeOk =>
    exact playBeep_pending_noResumeCall s p f d w v fresh synthOk closeOk hp
  | gestureOp =>
    simp only [step]
    split
    · rw [attemptResumeStart_pending s p _ hp]
      rfl
    · rfl
  | visibilityOp visible =>
    simp only [step]
    split
    · rw [attemptResumeStart_pending s p _ hp]
      rfl
    · rfl
  | stateChangedOp ns =>
    simp only [step]
    exact stateChangeListener_pending_noResumeCall _ p
      (by rw [applyStateChange_resumePromise, hp])
  | settleOp o closeOk =>
    exact settlePending_noResumeCall s o closeOk
  | settleThenBeepOp o f d w v synthOk closeOk =>
    simp only [step]
    split
    · split
      · simp [countResumeCalls_append, settlePending_noResumeCall, doPlayBeep_noResumeCall]
      · exact settlePending_noResumeCall s o closeOk
    · exact settlePending_noResumeCall s o closeOk
  | settleThenEnsureOp o fresh closeOk =>
    exact settlePending_noResumeCall s o closeOk
  | testSoundOp creationOk fresh o synthOk closeOk =>
    simp only [step]
    split
    · rfl
    · rename_i out hT
      exact testSound_ok_noResumeCall s p creationOk fresh o synthOk closeOk out hp hT

/-- The Unlock-Ever-Achieved flag can turn from false to true only on the
settlement of a stored attempt whose platform resume call resolved. -/
theorem step_flag_only_by_resolution (s : ServiceState) (op : Op)
    (h : (step s op).state.hasUnlockedBefore = true) :
    s.hasUnlockedBefore = true ∨
      ∃ post, settleOutcome op = some (ResumeOutcome.resolves post) := by
  cases op with
  | primeOp fresh =>
    rw [step, getContext_hasUnlocked] at h
    exact Or.inl h
  | ensureRunningOp fresh =>
    simp only [step] at h
    split at h
    · rw [getContext_hasUnlocked] at h
      exact Or.inl h
    · rw [attemptResumeStart_flag, getContext_hasUnlocked] at h
      exact Or.inl h
  | playBeepOp f d w v fresh synthOk closeOk =>
    exact Or.inl (playBeep_flag_mono s f d w v fresh synthOk closeOk h)
  | gestureOp =>
    simp only [step] at h
    split at h
    · rw [attemptResumeStart_flag] at h
      exact Or.inl h
    · exact Or.inl h
  | visibilityOp visible =>
    simp only [step] at h
    split at h
    · rw [attemptResumeStart_flag] at h
      exact Or.inl h
    · exact Or.inl h
  | stateChangedOp ns =>
    simp only [step] at h
    rw [stateChangeListener_flag, applyStateChange_flag] at h
    exact Or.inl h
  | settleOp o closeOk =>
    simp only [step, settleOutcome] at h ⊢
    rcases settlePending_flag s o closeOk h with h1 | ⟨post, h1⟩
    · exact Or.inl h1
    · exact Or.inr ⟨post, by rw [h1]⟩
  | settleThenBeepOp o f d w v synthOk closeOk =>
    simp only [step, settleOutcome] at h ⊢
    have hT : (settlePending s o closeOk).state.hasUnlockedBefore = true →
        s.hasUnlockedBefore = true ∨ ∃ post, o = ResumeOutcome.resolves post :=
      settlePending_flag s o closeOk
    split at h
    · split at h
      · rcases hT (doPlayBeep_flag_mono _ _ _ _ _ _ _ _ h) with h1 | ⟨post, h1⟩
        · exact Or.inl h1
        · exact Or.inr ⟨post, by rw [h1]⟩
      · rcases hT h with h1 | ⟨post, h1⟩
        · exact Or.inl h1
        · exact Or.inr ⟨post, by rw [h1]⟩
    · rcases hT h with h1 | ⟨post, h1⟩
      · exact Or.inl h1
      · exact Or.inr ⟨post, by rw [h1]⟩
  | settleThenEnsureOp o fresh closeOk =>
    simp only [step, settleOutcome] at h ⊢
    rw [getContext_hasUnlocked] at h
    rcases settlePending_flag s o closeOk h with h1 | ⟨post, h1⟩
    · exact Or.inl h1
    · exact Or.inr ⟨post, by rw [h1]⟩
  | testSoundOp creationOk fresh o synthOk closeOk =>
    simp only [step, settleOutcome] at h ⊢
    split at h
    · exact Or.inl h
    · rename_i out hT
      rcases testSound_ok_flag s creationOk fresh o synthOk closeOk out hT h with h1 | ⟨post, h1⟩
      · exact Or.inl h1
      · exact Or.inr ⟨post, by rw [h1]⟩

/-! ## Sample states used by witnesses -/

/-- A state with a live suspended context and an attempt in flight. -/
def sampleBusy : ServiceState :=
  { context := some { state := "suspended", currentTime := 0 }
    resumePromise := some { id := 0, trigger := "ensureRunning", fromState := "suspended" }
    listenersAttached := true
    hasUnlockedBefore := false
    nextId := 1 }

/-- A state with a live suspended context, no attempt in flight, after a
prior successful unlock. -/
def sampleUnlocked : ServiceState :=
  { context := some { state := "suspended", currentTime := 0 }
    resumePromise := none
    listenersAttached := true
    hasUnlockedBefore := true
    nextId := 2 }

/-- A state with a live running context and no attempt in flight. -/
def sampleRunning : ServiceState :=
  { context := some { state := "running", currentTime := 0 }
    resumePromise := none
    listenersAttached := true
    hasUnlockedBefore := true
    nextId := 3 }

/-- A state with a live suspended context, no attempt in flight, never
unlocked. -/
def sampleLocked : ServiceState :=
  { context := some { state := "suspended", currentTime := 0 }
    resumePromise := none
    listenersAttached := true
    hasUnlockedBefore := false
    nextId := 1 }

/-! ## Claims -/

/-- Claim C1: while a Resume Attempt is in flight on the Output Context,
resume requests coalesce onto that same attempt.  First conjunct: no
event-loop turn of any kind (ensureRunning, playBeep, any listener,
settlement continuations, testSound) issues a platform resume call while
the attempt is stored, so the platform resume call is invoked at most
once per attempt.  Second conjunct: any call into the coordinator while
the context is not already running returns exactly the stored attempt
promise, with the state unchanged and no events or platform calls. -/
theorem C1_resume_attempt_coalescing (s : ServiceState) (p : Pending)
    (hp : s.resumePromise = some p) :
    (∀ op : Op, countResumeCalls (step s op).actions = 0) ∧
    (∀ (t : String) (c : Ctx), s.context = some c → c.state ≠ "running" →
      attemptResumeStart s t =
        { state := s, events := [], actions := []
          result := ResumeStart.awaitExisting p.id }) := by
  constructor
  · intro op
    exact step_pending_noResumeCall s p op hp
  · intro t c hc hcr
    rw [attemptResumeStart_pending s p t hp, hc]
    simp [hcr]

theorem C1_witness :
    countResumeCalls (step sampleBusy Op.gestureOp).actions = 0 ∧
    attemptResumeStart sampleBusy "gesture" =
      { state := sampleBusy, events := [], actions := []
        result := ResumeStart.awaitExisting 0 } :=
  ⟨(C1_resume_attempt_coalescing sampleBusy
      { id := 0, trigger := "ensureRunning", fromState := "suspended" } rfl).1 Op.gestureOp,
   (C1_resume_attempt_coalescing sampleBusy
      { id := 0, trigger := "ensureRunning", fromState := "suspended" } rfl).2 "gesture"
      { state := "suspended", currentTime := 0 } rfl (by decide)⟩

/-- Claim C2: settling an in-flight attempt by platform rejection, or by
the timeout winning the race, records `resume_failed` with the error and
the prior state, destroys the context (so the diagnostic snapshot shows
no context until the next access re-creates one) and resolves the
attempt with false. -/
theorem C2_resume_failure_destroys (s : ServiceState) (p : Pending) (c : Ctx)
    (e : String) (o : ResumeOutcome) (closeOk : Bool)
    (hc : s.context = some c)
    (ho : o = ResumeOutcome.rejects e ∨
      (o = ResumeOutcome.timesOut ∧ e = timeoutMessage p.trigger)) :
    attemptResumeSettle s p o closeOk =
      { state := { s with context := none, resumePromise := none, hasUnlockedBefore := false }
        events := [Event.resume_failed e p.fromState p.trigger,
                   Event.context_destroyed c.state s.hasUnlockedBefore]
        actions := [PlatformAction.closeCall]
        result := false } ∧
    (getState (attemptResumeSettle s p o closeOk).state).contextExists = false ∧
    (∀ fresh, (getState
        (getContext (attemptResumeSettle s p o closeOk).state fresh).state).contextExists
      = true) := by
  have h1 : attemptResumeSettle s p o closeOk =
      { state := { s with context := none, resumePromise := none, hasUnlockedBefore := false }
        events := [Event.resume_failed e p.fromState p.trigger,
                   Event.context_destroyed c.state s.hasUnlockedBefore]
        actions := [PlatformAction.closeCall]
        result := false } := by
    rcases ho with rfl | ⟨rfl, rfl⟩ <;>
      simp only [attemptResumeSettle, destroyContext_some s c closeOk hc]
  refine ⟨h1, ?_, ?_⟩
  · rw [h1]
    rfl
  · intro fresh
    rw [h1]
    rfl

theorem C2_witness :
    attemptResumeSettle sampleBusy
        { id := 0, trigger := "ensureRunning", fromState := "suspended" }
        (ResumeOutcome.rejects "NotAllowedError") true =
      { state := { sampleBusy with
                   context := none, resumePromise := none, hasUnlockedBefore := false }
        events := [Event.resume_failed "NotAllowedError" "suspended" "ensureRunning",
                   Event.context_destroyed "suspended" false]
        actions := [PlatformAction.closeCall]
        result := false } ∧
    (getState (attemptResumeSettle sampleBusy
        { id := 0, trigger := "ensureRunning", fromState := "suspended" }
        (ResumeOutcome.rejects "NotAllowedError") true).state).contextExists = false :=
  ⟨((C2_resume_failure_destroys sampleBusy
      { id := 0, trigger := "ensureRunning", fromState := "suspended" }
      { state := "suspended", currentTime := 0 } "NotAllowedError"
      (ResumeOutcome.rejects "NotAllowedError") true rfl (Or.inl rfl)).1),
   ((C2_resume_failure_destroys sampleBusy
      { id := 0, trigger := "ensureRunning", fromState := "suspended" }
      { state := "suspended", currentTime := 0 } "NotAllowedError"
      (ResumeOutcome.rejects "NotAllowedError") true rfl (Or.inl rfl)).2.1)⟩

/-- Claim C3: the statechange listener is gated on the
Unlock-Ever-Achieved flag.  With the flag false, a state change to a
non-playable state is a no-op (no resume attempt, no events, no platform
calls).  With the flag true, the identical state change invokes the
coordinator, and — when the state is resumable and no attempt is in
flight — a `resuming` record with trigger "statechange" is emitted. -/
theorem C3_statechange_gated_on_unlock (s : ServiceState) (c : Ctx)
    (hc : s.context = some c) (hnr : c.state ≠ "running") :
    (s.hasUnlockedBefore = false →
      stateChangeListener s =
        { state := s, events := [], actions := [], invoked := false }) ∧
    (s.hasUnlockedBefore = true →
      (stateChangeListener s).invoked = true ∧
      ((c.state = "suspended" ∨ c.state = "interrupted") → s.resumePromise = none →
        Event.resuming "statechange" c.state ∈ (stateChangeListener s).events)) := by
  constructor
  · intro hf
    simp [stateChangeListener, hf]
  · intro hf
    constructor
    · simp [stateChangeListener, hf, hc, hnr]
    · intro hres hp
      simp only [stateChangeListener, hc, hf]
      have hb : (c.state != "running") = true := by
        simpa using hnr
      simp only [hb, Bool.and_true, Bool.true_and, if_true]
      unfold attemptResumeStart
      rw [hc, hp]
      have hr : (c.state == "running") = false := by
        simpa using hnr
      have hsi : (c.state == "suspended" || c.state == "interrupted") = true := by
        rcases hres with h | h <;> simp [h]
      simp [hr, hsi]

theorem C3_witness :
    stateChangeListener sampleLocked =
      { state := sampleLocked, events := [], actions := [], invoked := false } ∧
    (stateChangeListener sampleUnlocked).invoked = true ∧
    Event.resuming "statechange" "suspended" ∈ (stateChangeListener sampleUnlocked).events :=
  ⟨(C3_statechange_gated_on_unlock sampleLocked
      { state := "suspended", currentTime := 0 } rfl (by decide)).1 rfl,
   ((C3_statechange_gated_on_unlock sampleUnlocked
      { state := "suspended", currentTime := 0 } rfl (by decide)).2 rfl).1,
   ((C3_statechange_gated_on_unlock sampleUnlocked
      { state := "suspended", currentTime := 0 } rfl (by decide)).2 rfl).2 (Or.inl rfl) rfl⟩

/-- Claim C4 counterexample: when no context exists and the platform
context constructor fails (unavailable audio API or context limit),
`testSound` propagates the exception to its caller instead of returning a
structured result, because `getContext` is invoked before the `try`
block. -/
theorem C4_counterexample :
    testSound initialState false "suspended" ResumeOutcome.timesOut true true =
      Except.error "AudioContext constructor threw" := rfl

/-- Claim C4 (amended): provided the platform context constructor
succeeds, `testSound` never throws — for every service state and every
platform resume behavior (immediate success, delayed success, rejection,
timeout) and any synthesis/close failure it returns a structured
state/played/error result, and every non-played result carries an error
while a played result carries none. -/
theorem C4_testSound_no_throw (s : ServiceState) (fresh : String)
    (o : ResumeOutcome) (synthOk closeOk : Bool) :
    ∃ out : TestOut, testSound s true fresh o synthOk closeOk = Except.ok out ∧
      (out.result.played = false → out.result.error.isSome = true) ∧
      (out.result.played = true → out.result.error = none) := by
  simp only [testSound, getContextE_true s fresh]
  split
  · split
    · split
      · exact ⟨_, rfl, by simp, by simp⟩
      · exact ⟨_, rfl, by simp, by simp⟩
    · exact ⟨_, rfl, by simp, by simp⟩
  · exact ⟨_, rfl, by simp, by simp⟩

/-- The run underlying the C5 counterexample: create a fresh suspended
context, start an attempt, and let the platform resume call resolve while
the context remains suspended (an iOS context can be re-interrupted
immediately). -/
def resolveSuspendedRun : SettleOut :=
  settlePending
    (attemptResumeStart (getContext initialState "suspended").state "ensureRunning").state
    (ResumeOutcome.resolves "suspended") true

/-- Claim C5 counterexample: when the platform resume call resolves but
the state remains suspended, the code sets the Unlock-Ever-Achieved flag
before checking the post-resume state, so the flag is true although no
Resume Attempt has succeeded for the current context instance — the only
attempt resolved false and the context is still not playable. -/
theorem C5_counterexample :
    resolveSuspendedRun.state.hasUnlockedBefore = true ∧
    resolveSuspendedRun.result = false ∧
    resolveSuspendedRun.state.context =
      some { state := "suspended", currentTime := 0 } :=
  ⟨rfl, rfl, rfl⟩

/-- Claim C5 (amended): the Unlock-Ever-Achieved flag is governed by
resume-call resolution and context destruction: settling an attempt whose
platform resume call resolved sets it (regardless of the post-resume
state); destroying a live context resets it to false; and no event-loop
turn other than a settlement with a resolving outcome can turn it on. -/
theorem C5_flag_semantics (s : ServiceState) (op : Op) (p : Pending)
    (post : String) (closeOk : Bool) (c : Ctx) :
    ((step s op).state.hasUnlockedBefore = true →
      s.hasUnlockedBefore = true ∨
        ∃ q, settleOutcome op = some (ResumeOutcome.resolves q)) ∧
    (attemptResumeSettle s p (ResumeOutcome.resolves post) closeOk).state.hasUnlockedBefore
      = true ∧
    (s.context = some c → (destroyContext s closeOk).state.hasUnlockedBefore = false) := by
  refine ⟨step_flag_only_by_resolution s op, rfl, ?_⟩
  intro hc
  rw [destroyContext_some s c closeOk hc]

theorem C5_witness :
    (sampleUnlocked.hasUnlockedBefore = true ∨
      ∃ q, settleOutcome Op.gestureOp = some (ResumeOutcome.resolves q)) ∧
    (attemptResumeSettle sampleBusy
        { id := 0, trigger := "ensureRunning", fromState := "suspended" }
        (ResumeOutcome.resolves "running") true).state.hasUnlockedBefore = true ∧
    (destroyContext sampleBusy true).state.hasUnlockedBefore = false :=
  ⟨(C5_flag_semantics sampleUnlocked Op.gestureOp
      { id := 0, trigger := "ensureRunning", fromState := "suspended" } "running" true
      { state := "suspended", currentTime := 0 }).1 (by decide),
   (C5_flag_semantics sampleBusy Op.gestureOp
      { id := 0, trigger := "ensureRunning", fromState := "suspended" } "running" true
      { state := "suspended", currentTime := 0 }).2.1,
   (C5_flag_semantics sampleBusy Op.gestureOp
      { id := 0, trigger := "ensureRunning", fromState := "suspended" } "running" true
      { state := "suspended", currentTime := 0 }).2.2 rfl⟩

/-- Claim C6: a playBeep call made while the context is suspended or
interrupted and an attempt is already in flight is dropped: the state is
unchanged, no tone is synthesized, no platform call of any kind is issued
(in particular no second resume call), and exactly one play_skipped
record with reason resume_in_progress is emitted. -/
theorem C6_playBeep_dropped_during_resume (s : ServiceState) (c : Ctx) (p : Pending)
    (f d : ℚ) (w : Waveform) (v : ℚ) (fresh : String) (synthOk closeOk : Bool)
    (hc : s.context = some c)
    (hs : c.state = "suspended" ∨ c.state = "interrupted")
    (hp : s.resumePromise = some p) :
    playBeep s f d w v fresh synthOk closeOk =
      { state := s
        events := [Event.play_skipped "resume_in_progress" c.state]
        actions := [] } := by
  have hcl : c.state ≠ "closed" := by
    rcases hs with h | h <;> simp [h]
  have h1 : (c.state == "running") = false := by
    rcases hs with h | h <;> simp [h]
  have h2 : (c.state == "suspended" || c.state == "interrupted") = true := by
    rcases hs with h | h <;> simp [h]
  simp [playBeep, getContext_live s c fresh hc hcl, h1, h2, hp]

theorem C6_witness :
    playBeep sampleBusy 880 (3/20) Waveform.sine (7/10) "suspended" true true =
      { state := sampleBusy
        events := [Event.play_skipped "resume_in_progress" "suspended"]
        actions := [] } :=
  C6_playBeep_dropped_during_resume sampleBusy
    { state := "suspended", currentTime := 0 }
    { id := 0, trigger := "ensureRunning", fromState := "suspended" }
    880 (3/20) Waveform.sine (7/10) "suspended" true true rfl (Or.inl rfl) rfl

/-- Claim C7: a playBeep call made while the context is running, with the
platform tone graph constructing normally, synthesizes exactly one tone
carrying exactly the given frequency, duration, waveform and volume, and
issues no platform resume call; even when synthesis fails, no resume call
is issued. -/
theorem C7_playBeep_running_exact_tone (s : ServiceState) (c : Ctx)
    (f d : ℚ) (w : Waveform) (v : ℚ) (fresh : String) (closeOk : Bool)
    (hc : s.context = some c) (hr : c.state = "running") :
    playBeep s f d w v fresh true closeOk =
      { state := s
        events := [Event.played f d "running"]
        actions := [PlatformAction.tone f d w v c.currentTime] } ∧
    countTones (playBeep s f d w v fresh true closeOk).actions = 1 ∧
    ∀ synthOk, countResumeCalls (playBeep s f d w v fresh synthOk closeOk).actions = 0 := by
  have hcl : c.state ≠ "closed" := by simp [hr]
  have hg := getContext_live s c fresh hc hcl
  have h1 : playBeep s f d w v fresh true closeOk =
      { state := s
        events := [Event.played f d "running"]
        actions := [PlatformAction.tone f d w v c.currentTime] } := by
    simp [playBeep, hg, hr, doPlayBeep]
  refine ⟨h1, ?_, ?_⟩
  · rw [h1]
    rfl
  · intro synthOk
    simp only [playBeep, hg]
    split
    · exact doPlayBeep_noResumeCall _ _ _ _ _ _ _ _
    · rename_i hfalse
      rw [hr] at hfalse
      simp at hfalse

theorem C7_witness :
    playBeep sampleRunning 660 (1/4) Waveform.square (1/2) "suspended" true true =
      { state := sampleRunning
        events := [Event.played 660 (1/4) "running"]
        actions := [PlatformAction.tone 660 (1/4) Waveform.square (1/2) 0] } ∧
    countTones (playBeep sampleRunning 660 (1/4) Waveform.square (1/2) "suspended"
      true true).actions = 1 ∧
    ∀ synthOk, countResumeCalls (playBeep sampleRunning 660 (1/4) Waveform.square (1/2)
      "suspended" synthOk true).actions = 0 :=
  C7_playBeep_running_exact_tone sampleRunning
    { state := "running", currentTime := 0 }
    660 (1/4) Waveform.square (1/2) "suspended" true rfl rfl

/-- A state with a live closed context and no attempt in flight. -/
def sampleClosed : ServiceState :=
  { context := some { state := "closed", currentTime := 0 }
    resumePromise := none
    listenersAttached := true
    hasUnlockedBefore := false
    nextId := 4 }

/-- A state after destruction: listeners still attached, no context. -/
def sampleDestroyed : ServiceState :=
  { context := none
    resumePromise := none
    listenersAttached := true
    hasUnlockedBefore := false
    nextId := 5 }

/-- Claim C8: destroy is best-effort and idempotent: its output never
depends on whether the platform close call fails (the failure is
swallowed); on a live context it issues the close call, clears the
handle, the in-flight attempt and the Unlock-Ever-Achieved flag; on an
absent context it is a no-op; and destroying twice equals destroying
once. -/
theorem C8_destroy_idempotent :
    (∀ (s : ServiceState) (a b : Bool), destroyContext s a = destroyContext s b) ∧
    (∀ (s : ServiceState) (c : Ctx) (closeOk : Bool), s.context = some c →
      destroyContext s closeOk =
        { state := { s with
              context := none, resumePromise := none, hasUnlockedBefore := false }
          events := [Event.context_destroyed c.state s.hasUnlockedBefore]
          actions := [PlatformAction.closeCall] }) ∧
    (∀ (s : ServiceState) (closeOk : Bool), s.context = none →
      destroyContext s closeOk = { state := s, events := [], actions := [] }) ∧
    (∀ (s : ServiceState) (a b : Bool),
      destroyContext (destroyContext s a).state b =
        { state := (destroyContext s a).state, events := [], actions := [] }) := by
  refine ⟨destroyContext_closeOk_irrelevant, destroyContext_some, destroyContext_none, ?_⟩
  intro s a b
  exact destroyContext_none _ b (destroyContext_context s a)

theorem C8_witness :
    destroyContext sampleUnlocked true =
      { state := { sampleUnlocked with
            context := none, resumePromise := none, hasUnlockedBefore := false }
        events := [Event.context_destroyed "suspended" true]
        actions := [PlatformAction.closeCall] } ∧
    destroyContext (destroyContext sampleUnlocked true).state false =
      { state := (destroyContext sampleUnlocked true).state
        events := [], actions := [] } :=
  ⟨C8_destroy_idempotent.2.1 sampleUnlocked
      { state := "suspended", currentTime := 0 } true rfl,
   C8_destroy_idempotent.2.2.2 sampleUnlocked true false⟩

/-- Claim C9: the coordinator invoked with no attempt in flight on a
context whose state is closed — or any value other than running,
suspended or interrupted — resolves immediately with failure: the state
is untouched (so in particular no destruction happens), and no events or
platform calls are produced. -/
theorem C9_unexpected_state_immediate_failure (s : ServiceState) (c : Ctx) (t : String)
    (hc : s.context = some c) (hp : s.resumePromise = none)
    (h1 : c.state ≠ "running") (h2 : c.state ≠ "suspended")
    (h3 : c.state ≠ "interrupted") :
    attemptResumeStart s t =
      { state := s, events := [], actions := [], result := ResumeStart.immediate false } := by
  unfold attemptResumeStart
  rw [hc, hp]
  simp [h1, h2, h3]

theorem C9_witness :
    attemptResumeStart sampleClosed "ensureRunning" =
      { state := sampleClosed, events := [], actions := []
        result := ResumeStart.immediate false } :=
  C9_unexpected_state_immediate_failure sampleClosed
    { state := "closed", currentTime := 0 } "ensureRunning" rfl rfl
    (by decide) (by decide) (by decide)

/-- Claim C10: invoking the coordinator with any trigger while no context
exists (for example a gesture listener firing after destruction and
before re-creation) resolves false immediately, creates no context,
issues no platform call, emits no events, and leaves every field of the
service state unchanged. -/
theorem C10_resume_without_context_noop (s : ServiceState) (t : String)
    (hc : s.context = none) :
    attemptResumeStart s t =
      { state := s, events := [], actions := [], result := ResumeStart.immediate false } :=
  attemptResumeStart_noContext s t hc

theorem C10_witness :
    attemptResumeStart sampleDestroyed "gesture" =
      { state := sampleDestroyed, events := [], actions := []
        result := ResumeStart.immediate false } :=
  C10_resume_without_context_noop sampleDestroyed "gesture" rfl

end AudioService
